import Mathlib

/-!
Verification development for the CT-DOT / Tobin vehicle-demand comparison
pipeline.  The definitions below are a shallow embedding of the two Python
scripts of the repository:

  * `src/11_logit_estimation/estimate_demand_compare.py`
    (namespace `EstimateDemandCompare`)
  * `src/12_logit_demand/01_data_prep/rlp_finalize_data.py`
    (namespace `RlpFinalizeData`)

Dataframes are embedded as lists; machine floats are embedded as `Rat`;
external library calls (pyblp, statsmodels fits, and the helper modules
`functions_rlp` / `Reference.functions_v2`, which are not part of the two
scripts) are abstracted as function parameters, universally quantified in
the theorems, so every theorem holds for all behaviours of those externals.
-/

namespace EstimateDemandCompare

/-- Module-level setting `rlp_market` (script line 36): the market
definition chosen for the run. -/
def rlp_market : String := "county_model_year"

/-- `params_master` (script line 230): the master covariate list; the last
three entries are the categorical controls. -/
def params_master : List String :=
  ["prices", "dollar_per_mile", "electric", "phev", "hybrid", "diesel",
   "log_hp_weight", "wheelbase", "doors", "range_elec",
   "make", "drivetype", "bodytype"]

/-- `specifications` (script line 232): the list of specification indices
iterated by `run_logit_model`. -/
def specifications : List Nat := [1, 2, 6, 7, 8, 9, 10]

/-- Python `params_master[-3:]`: the fixed trailing block of categorical
controls. -/
def params_master_last3 : List String :=
  params_master.drop (params_master.length - 3)

/-- `params_logit` (script lines 256-261): covariates of the discrete-choice
formula for data source `data_source` under market definition `mkt` at
specification index `j`.  The categorical controls are wrapped in `C(...)`;
`C(county_name)` is appended only in the branch
`data_source == "RLP" and rlp_market == "county_model_year"`. -/
def params_logit (data_source mkt : String) (j : Nat) : List String :=
  if data_source = "RLP" ∧ mkt = "county_model_year" then
    params_master.take j
      ++ params_master_last3.map (fun param => "C(" ++ param ++ ")")
      ++ ["C(county_name)"]
  else
    params_master.take j
      ++ params_master_last3.map (fun param => "C(" ++ param ++ ")")

/-- `params_ols` (script lines 256-261): covariates handed to the OLS design
matrix builder; same names as `params_logit` without the `C(...)` wrapper. -/
def params_ols (data_source mkt : String) (j : Nat) : List String :=
  if data_source = "RLP" ∧ mkt = "county_model_year" then
    params_master.take j ++ params_master_last3 ++ ["county_name"]
  else
    params_master.take j ++ params_master_last3

/-- `params_str` (script lines 262-263): the textual pyblp formula,
`'0 + ' + ' + '.join(params_logit)`. -/
def params_str (data_source mkt : String) (j : Nat) : String :=
  "0 + " ++ String.intercalate " + " (params_logit data_source mkt j)

/-- Strip a `C(...)` wrapper from a formula term, if present. -/
def stripC (s : String) : String :=
  if s.data.take 2 = ['C', '('] ∧ s.data.getLast? = some ')' then
    String.mk ((s.data.drop 2).dropLast)
  else s

/-- The names of the categorical control columns appearing anywhere in the
runner (used to separate categorical from non-categorical covariates). -/
def categorical_controls : List String :=
  ["make", "drivetype", "bodytype", "county_name"]

end EstimateDemandCompare

namespace EstimateDemandCompare

/-- C2: for every specification index in the runner's list and both data
sources and both market definitions, the non-categorical covariates are
exactly the length-`j` prefix of `params_master` (headed by `"prices"`),
followed by the fixed trailing block of categorical controls; and for
consecutive indices the covariate prefixes are strictly nested. -/
theorem C2_cumulative_specifications :
    (∀ j ∈ specifications, ∀ ds ∈ ["Experian", "RLP"],
      ∀ mkt ∈ ["model_year", "county_model_year"],
        (params_ols ds mkt j).filter
            (fun p => !(categorical_controls.contains p)) = params_master.take j
        ∧ (params_master.take j).head? = some "prices"
        ∧ params_ols ds mkt j
            = params_master.take j ++ params_master_last3
              ++ (if ds = "RLP" ∧ mkt = "county_model_year"
                  then ["county_name"] else []))
    ∧ ∀ p ∈ specifications.zip specifications.tail,
        p.1 < p.2
        ∧ (params_master.take p.1).isPrefixOf (params_master.take p.2) = true
        ∧ params_master.take p.1 ≠ params_master.take p.2 := by
  decide

/-- Witness for `C2_cumulative_specifications` at `j = 2`, source
`"Experian"`, market `"model_year"`. -/
theorem C2_cumulative_specifications_witness :
    (params_ols "Experian" "model_year" 2).filter
        (fun p => !(categorical_controls.contains p)) = params_master.take 2
    ∧ (params_master.take 2).head? = some "prices"
    ∧ params_ols "Experian" "model_year" 2
        = params_master.take 2 ++ params_master_last3
          ++ (if ("Experian" : String) = "RLP" ∧ ("model_year" : String) = "county_model_year"
              then ["county_name"] else []) :=
  C2_cumulative_specifications.1 2 (by decide) "Experian" (by decide)
    "model_year" (by decide)

/-- C3 counterexample: under the run's market definition
`county_model_year`, the Experian discrete-choice formula at specification
index 1 contains no `county_name` fixed effect, contradicting the claim
that county enters for every data source whenever the market definition
includes county. -/
theorem C3_counterexample :
    rlp_market = "county_model_year"
    ∧ (params_logit "Experian" rlp_market 1).contains "C(county_name)" = false
    ∧ params_str "Experian" rlp_market 1
        = "0 + prices + C(make) + C(drivetype) + C(bodytype)" := by
  decide

/-- C3 (amended): for every specification index in the list, every data
source and every market definition, the formula has no intercept (it is
`"0 + "` followed by the `" + "`-joined covariates), and consists of the
length-`j` covariate prefix of the master list followed by the categorical
fixed effects `C(make)`, `C(drivetype)`, `C(bodytype)`, with
`C(county_name)` appended exactly when the data source is RLP and the
market definition is `county_model_year`. -/
theorem C3_no_intercept_formula :
    ∀ j ∈ specifications, ∀ ds ∈ ["Experian", "RLP"],
      ∀ mkt ∈ ["model_year", "county_model_year"],
        params_str ds mkt j
            = "0 + " ++ String.intercalate " + " (params_logit ds mkt j)
        ∧ params_logit ds mkt j
            = params_master.take j ++ ["C(make)", "C(drivetype)", "C(bodytype)"]
              ++ (if ds = "RLP" ∧ mkt = "county_model_year"
                  then ["C(county_name)"] else [])
        ∧ ("C(county_name)" ∈ params_logit ds mkt j
            ↔ (ds = "RLP" ∧ mkt = "county_model_year")) := by
  decide

/-- Witness for `C3_no_intercept_formula` at `j = 1`, source `"RLP"`,
market `"county_model_year"`. -/
theorem C3_no_intercept_formula_witness :
    params_str "RLP" "county_model_year" 1
        = "0 + " ++ String.intercalate " + " (params_logit "RLP" "county_model_year" 1)
    ∧ params_logit "RLP" "county_model_year" 1
        = params_master.take 1 ++ ["C(make)", "C(drivetype)", "C(bodytype)"]
          ++ (if ("RLP" : String) = "RLP" ∧ ("county_model_year" : String) = "county_model_year"
              then ["C(county_name)"] else [])
    ∧ ("C(county_name)" ∈ params_logit "RLP" "county_model_year" 1
        ↔ (("RLP" : String) = "RLP" ∧ ("county_model_year" : String) = "county_model_year")) :=
  C3_no_intercept_formula 1 (by decide) "RLP" (by decide)
    "county_model_year" (by decide)

end EstimateDemandCompare

namespace EstimateDemandCompare

/-- A dataframe cell value (string, integer, rational, or missing). -/
inductive CVal where
  | s (v : String)
  | i (v : Int)
  | q (v : Rat)
  | na
deriving DecidableEq, Repr

/-- A dataframe cell: column name paired with a value. -/
abbrev Cell := String × CVal

/-- A dataframe row, as its list of cells. -/
abbrev Row := List Cell

/-- A dataframe, as its list of rows. -/
abbrev Frame := List Row

/-- Value of column `c` in row `r` (pandas column lookup; missing column
reads as missing value). -/
def rowVal (r : Row) (c : String) : CVal :=
  match r.find? (fun cell => decide (cell.1 = c)) with
  | some cell => cell.2
  | none => CVal.na

/-- Column names of a frame (frames built here have uniform rows). -/
def frameCols (t : Frame) : List String := (t.headD []).map Prod.fst

/-- An all-missing row over the given columns: the NaN padding created by
`pd.concat(axis=1)` when the two frames have different lengths. -/
def naRow (cols : List String) : Row := cols.map (fun c => (c, CVal.na))

/-- `pd.concat([t1, t2], axis=1)` on default integer indices: rows are
paired positionally; the shorter frame is padded with missing values. -/
def hconcat (t1 t2 : Frame) : Frame :=
  (List.range (max t1.length t2.length)).map fun k =>
    t1.getD k (naRow (frameCols t1)) ++ t2.getD k (naRow (frameCols t2))

/-- Coefficient triples (parameter name, estimate, standard error) returned
by an estimation backend. -/
abbrev Coefs := List (String × Rat × Rat)

/-- `pd.DataFrame({'specification': j, 'data_source': ds, 'param': labels,
'value': values, 'se': ses})` (script lines 285-295): one row per
coefficient, with the two scalar tags broadcast onto every row. -/
def result_frame (j : Nat) (ds : String) (coefs : Coefs) : Frame :=
  coefs.map fun c =>
    [("specification", CVal.i j), ("data_source", CVal.s ds),
     ("param", CVal.s c.1), ("value", CVal.q c.2.1), ("se", CVal.q c.2.2)]

/-- Restriction of the RLP panel inside `run_logit_model` (script lines
236-237): when `myear` is an integer, keep only the rows of that model
year.  The Experian panel has no such restriction in the script. -/
def restrict_rlp (myear : Option Int) (rlp_df : Frame) : Frame :=
  match myear with
  | some y => rlp_df.filter (fun r => decide (rowVal r "model_year" = CVal.i y))
  | none => rlp_df

/-- The two market tables a run of `run_logit_model` actually uses — the
state saved to CSV at script lines 240-241: the Experian table exactly as
passed in, the RLP table after the `myear` restriction. -/
def used_data (exp_df rlp_df : Frame) (myear : Option Int) : Frame × Frame :=
  (exp_df, restrict_rlp myear rlp_df)

/-- `run_logit_model` (script lines 225-304), data-flow part.  The fits are
abstracted: `est_logit` maps (pyblp formula string, market table) to
coefficient triples, `est_ols` maps (OLS covariate list, market table) to
coefficient triples.  Returns the accumulated `(output_logit, output_ols)`
tables: inside one specification the two data sources are combined with
`pd.concat(axis=1)` (lines 297-298), across specifications with
`pd.concat(axis=0)` (lines 300-301). -/
def run_logit_model (est_logit : String → Frame → Coefs)
    (est_ols : List String → Frame → Coefs)
    (exp_df rlp_df : Frame) (specs : List Nat) (myear : Option Int) :
    Frame × Frame :=
  let rlp_used := restrict_rlp myear rlp_df
  specs.foldl
    (fun output j =>
      let spec_out :=
        [("Experian", exp_df), ("RLP", rlp_used)].foldl
          (fun acc src =>
            (hconcat acc.1
              (result_frame j src.1 (est_logit (params_str src.1 rlp_market j) src.2)),
             hconcat acc.2
              (result_frame j src.1 (est_ols (params_ols src.1 rlp_market j) src.2))))
          ([], [])
      (output.1 ++ spec_out.1, output.2 ++ spec_out.2))
    ([], [])

/-- The discrete-choice result block a single specification contributes to
`output_logit`: the horizontal pairing of the Experian and RLP frames. -/
def spec_block_logit (est_logit : String → Frame → Coefs)
    (exp_df rlp_used : Frame) (j : Nat) : Frame :=
  hconcat
    (result_frame j "Experian" (est_logit (params_str "Experian" rlp_market j) exp_df))
    (result_frame j "RLP" (est_logit (params_str "RLP" rlp_market j) rlp_used))

/-- The OLS result block a single specification contributes to
`output_ols`. -/
def spec_block_ols (est_ols : List String → Frame → Coefs)
    (exp_df rlp_used : Frame) (j : Nat) : Frame :=
  hconcat
    (result_frame j "Experian" (est_ols (params_ols "Experian" rlp_market j) exp_df))
    (result_frame j "RLP" (est_ols (params_ols "RLP" rlp_market j) rlp_used))

/-- Written to the words of the spec (C1's long-format description), for
the refinement comparison: one vertically stacked block per
(specification, data source) pair, Experian before RLP, each block
long-format. -/
def spec_long_format_logit (est_logit : String → Frame → Coefs)
    (exp_df rlp_used : Frame) (specs : List Nat) : Frame :=
  specs.flatMap fun j =>
    result_frame j "Experian" (est_logit (params_str "Experian" rlp_market j) exp_df)
      ++ result_frame j "RLP" (est_logit (params_str "RLP" rlp_market j) rlp_used)

/-- Written to the words of the spec (C1's long-format description), OLS
side. -/
def spec_long_format_ols (est_ols : List String → Frame → Coefs)
    (exp_df rlp_used : Frame) (specs : List Nat) : Frame :=
  specs.flatMap fun j =>
    result_frame j "Experian" (est_ols (params_ols "Experian" rlp_market j) exp_df)
      ++ result_frame j "RLP" (est_ols (params_ols "RLP" rlp_market j) rlp_used)

/-- Boolean check of claim C1 as stated: both accumulated tables equal the
long-format stacking, and every output row carries exactly one
`data_source` cell. -/
def C1_claim_check (est_logit : String → Frame → Coefs)
    (est_ols : List String → Frame → Coefs)
    (exp_df rlp_df : Frame) (specs : List Nat) (myear : Option Int) : Bool :=
  let run := run_logit_model est_logit est_ols exp_df rlp_df specs myear
  let used := used_data exp_df rlp_df myear
  decide (run.1 = spec_long_format_logit est_logit used.1 used.2 specs)
  && decide (run.2 = spec_long_format_ols est_ols used.1 used.2 specs)
  && (run.1 ++ run.2).all
      (fun r => decide (r.countP (fun c => decide (c.1 = "data_source")) = 1))

end EstimateDemandCompare

namespace EstimateDemandCompare

/-- Reading every position of a list with `getD` reproduces the list. -/
theorem getD_range_map {α : Type} (l : List α) (d : α) :
    (List.range l.length).map (fun k => l.getD k d) = l := by
  induction l with
  | nil => rfl
  | cons a t ih =>
    rw [List.length_cons, List.range_succ_eq_map, List.map_cons, List.map_map]
    refine congrArg (List.cons a) ?_
    simpa [Function.comp_def, List.getElem?_cons_succ] using ih

/-- `pd.concat(axis=1)` with an empty first frame returns the second frame
(the empty accumulator starting each specification loop). -/
theorem hconcat_nil (t : Frame) : hconcat [] t = t := by
  unfold hconcat
  simp only [List.length_nil, Nat.zero_max]
  exact getD_range_map t _

/-- The horizontal concatenation has one row per position of the longer
frame. -/
theorem hconcat_length (t1 t2 : Frame) :
    (hconcat t1 t2).length = max t1.length t2.length := by
  simp [hconcat]

/-- Evaluating the inner data-source loop of `run_logit_model`: it produces
the horizontal pairing of the Experian and RLP result frames. -/
theorem run_spec_out (el : String → Frame → Coefs)
    (eo : List String → Frame → Coefs) (exp_df rlp_used : Frame) (j : Nat) :
    ([("Experian", exp_df), ("RLP", rlp_used)].foldl
      (fun acc src =>
        (hconcat acc.1
          (result_frame j src.1 (el (params_str src.1 rlp_market j) src.2)),
         hconcat acc.2
          (result_frame j src.1 (eo (params_ols src.1 rlp_market j) src.2))))
      (([], []) : Frame × Frame))
    = (spec_block_logit el exp_df rlp_used j, spec_block_ols eo exp_df rlp_used j) := by
  simp [List.foldl, spec_block_logit, spec_block_ols, hconcat_nil]

/-- A fold that appends a pair of blocks per element is the pair of
flattened block lists. -/
theorem foldl_pair_append {β : Type} (f g : β → Frame) :
    ∀ (l : List β) (init : Frame × Frame),
      l.foldl (fun out j => (out.1 ++ f j, out.2 ++ g j)) init
        = (init.1 ++ l.flatMap f, init.2 ++ l.flatMap g) := by
  intro l
  induction l with
  | nil => intro init; simp
  | cons a t ih =>
    intro init
    simp [List.foldl_cons, ih, List.append_assoc]

/-- C1 (amended): each accumulated output table stacks exactly one block
per specification (not one per (specification, data source) pair); each
specification's block is the horizontal, positional pairing of the Experian
and RLP result frames, so a block has `max` of the two coefficient counts
rows; and within a single source's result frame every row leads with that
frame's specification id and data-source tag, one row per coefficient. -/
theorem C1_block_structure :
    (∀ (el : String → Frame → Coefs) (eo : List String → Frame → Coefs)
        (exp_df rlp_df : Frame) (specs : List Nat) (myear : Option Int),
      (run_logit_model el eo exp_df rlp_df specs myear).1
          = specs.flatMap (spec_block_logit el exp_df (restrict_rlp myear rlp_df))
      ∧ (run_logit_model el eo exp_df rlp_df specs myear).2
          = specs.flatMap (spec_block_ols eo exp_df (restrict_rlp myear rlp_df)))
    ∧ (∀ (j : Nat) (ds : String) (coefs : Coefs),
        (result_frame j ds coefs).all
          (fun r =>
            decide (r.take 2
              = [("specification", CVal.i j), ("data_source", CVal.s ds)])
            && decide (r.length = 5)) = true)
    ∧ (∀ t1 t2 : Frame, (hconcat t1 t2).length = max t1.length t2.length) := by
  refine ⟨?_, ?_, hconcat_length⟩
  · intro el eo exp_df rlp_df specs myear
    have h := foldl_pair_append
      (spec_block_logit el exp_df (restrict_rlp myear rlp_df))
      (spec_block_ols eo exp_df (restrict_rlp myear rlp_df)) specs ([], [])
    constructor
    · simp only [run_logit_model, run_spec_out]
      rw [h]
      simp
    · simp only [run_logit_model, run_spec_out]
      rw [h]
      simp
  · intro j ds coefs
    rw [List.all_eq_true]
    intro r hr
    obtain ⟨c, hc, rfl⟩ := List.mem_map.mp hr
    simp

/-- C1 counterexample: with an estimation backend returning one coefficient
per fit, two data sources and two specifications, the accumulated
discrete-choice table is not the long-format stacking of four blocks — it
has 2 rows (each pairing both sources side by side) where the long format
would have 4. -/
theorem C1_counterexample :
    C1_claim_check (fun _ _ => [("prices", 1, 1)]) (fun _ _ => [("const", 1, 1)])
        [] [] [1, 2] none = false
    ∧ (run_logit_model (fun _ _ => [("prices", 1, 1)])
        (fun _ _ => [("const", 1, 1)]) [] [] [1, 2] none).1.length = 2
    ∧ (spec_long_format_logit (fun _ _ => [("prices", 1, 1)]) [] [] [1, 2]).length
        = 4 := by
  decide

/-- Boolean check of claim C8 as stated: in a single-year run, every row
used from either data source belongs to the given model year. -/
def C8_claim_check (exp_df rlp_df : Frame) (y : Int) : Bool :=
  ((used_data exp_df rlp_df (some y)).1 ++ (used_data exp_df rlp_df (some y)).2).all
    (fun r => decide (rowVal r "model_year" = CVal.i y))

/-- C8 counterexample: an Experian row of model year 2019 is used unchanged
by a run restricted to model year 2020 — the script filters only the RLP
panel by `myear`. -/
theorem C8_counterexample :
    C8_claim_check [[("model_year", CVal.i 2019)]] [] 2020 = false
    ∧ (used_data [[("model_year", CVal.i 2019)]] [] (some 2020)).1
        = [[("model_year", CVal.i 2019)]] := by
  decide

/-- C8 (amended): in a single-year run, every RLP row used belongs to the
given model year and the used RLP rows form a sublist of the input RLP
panel, while the Experian panel is used in full, unfiltered. -/
theorem C8_rlp_only_restricted :
    ∀ (exp_df rlp_df : Frame) (y : Int),
      (used_data exp_df rlp_df (some y)).2.all
          (fun r => decide (rowVal r "model_year" = CVal.i y)) = true
      ∧ List.Sublist (used_data exp_df rlp_df (some y)).2 rlp_df
      ∧ (used_data exp_df rlp_df (some y)).1 = exp_df := by
  intro exp_df rlp_df y
  simp only [used_data, restrict_rlp]
  refine ⟨?_, List.filter_sublist _, trivial⟩
  rw [List.all_eq_true]
  intro r hr
  exact (List.mem_filter.mp hr).2

/-- Whether an attempted fit failed. -/
def isFitError (e : Except String Unit) : Bool :=
  match e with
  | .ok _ => false
  | .error _ => true

/-- The per-model-year loop (script lines 311-317): iterate over the years,
run the comparison for each inside `try`, and on failure record the log
message `"Error running model year: <year>"` and continue with the next
year.  The fit for one year is abstracted as `run : Int → Except String
Unit`. -/
def per_year_loop (years : List Int) (run : Int → Except String Unit) :
    List (Int × Option String) :=
  match years with
  | [] => []
  | y :: rest =>
    match run y with
    | .ok _ => (y, none) :: per_year_loop rest run
    | .error _ =>
        (y, some ("Error running model year: " ++ toString y))
          :: per_year_loop rest run

/-- C9: every year in the list is attempted, in order, whatever the
failures — a failure at one year never prevents later years from being
attempted — and the years with a logged error message are exactly the
failing years. -/
theorem C9_year_loop_continues :
    ∀ (years : List Int) (run : Int → Except String Unit),
      (per_year_loop years run).map Prod.fst = years
      ∧ ((per_year_loop years run).filter (fun e => e.2.isSome)).map Prod.fst
          = years.filter (fun y => isFitError (run y)) := by
  intro years run
  induction years with
  | nil => exact ⟨rfl, rfl⟩
  | cons y rest ih =>
    cases h : run y with
    | ok u => simp [per_year_loop, h, ih.1, ih.2, isFitError]
    | error e => simp [per_year_loop, h, ih.1, ih.2, isFitError]

end EstimateDemandCompare

namespace EstimateDemandCompare

/-- A row of the RLP registration panel, restricted to the fields the
embedded steps of the two preparers read or write.  Columns added by the
script (`product_ids`, `market_ids`) are empty in raw input. -/
structure RlpRow where
  model_year : Int
  veh_count : Rat
  make : String
  model : String
  trim : String
  fuel : String
  range_elec : Rat
  county_name : String
  product_ids : String
  market_ids : String
deriving DecidableEq, Repr

/-- `remove_makes` (script lines 97-100): repeatedly filter out one make. -/
def remove_makes (df : List RlpRow) (makes : List String) : List RlpRow :=
  makes.foldl (fun df mk => df.filter (fun r => decide (r.make ≠ mk))) df

/-- Zero-market-share replacement (script line 141): rows with
`veh_count == 0` get `veh_count = zms_replaced_with`. -/
def replace_zms (zms_replaced_with : Rat) (df : List RlpRow) : List RlpRow :=
  df.map fun r =>
    if r.veh_count = 0 then { r with veh_count := zms_replaced_with } else r

/-- Product and market identifier construction (script lines 144-150):
string concatenation of categorical fields; the market id is the model year
or the county/model-year composite depending on `mkt_def` (no branch of the
script touches it otherwise). -/
def set_ids (mkt_def : String) (r : RlpRow) : RlpRow :=
  { r with
    product_ids :=
      r.make ++ "_" ++ r.model ++ "_" ++ toString r.model_year ++ "_"
        ++ r.trim ++ "_" ++ r.fuel ++ "_"
        ++ String.mk ((toString r.range_elec).data.take 3),
    market_ids :=
      if mkt_def = "model_year" then toString r.model_year
      else if mkt_def = "county_model_year" then
        r.county_name ++ "_" ++ toString r.model_year
      else r.market_ids }

/-- `prepare_rlp_data` (script lines 134-181).  The helper-module calls
(`rlp_functions.*`, whose code is outside the script) are abstract function
parameters; the census read is folded into the abstract
`merge_vin_census`; the column renames of line 175 are implicit in the
field names of `RlpRow`. -/
def prepare_rlp_data
    (generate_firm_ids generate_fuel_type_dummies merge_vin_census
      clean_market_data calc_outside_good generate_pyblp_instruments :
        List RlpRow → List RlpRow)
    (df : List RlpRow) (makes_to_remove : List String) (mkt_def : String)
    (year_to_drop : Option Int) (zms_replaced_with : Rat) : List RlpRow :=
  let df := df.filter (fun r =>
    decide (¬ (r.model_year = 2016 ∨ r.model_year = 2017 ∨ r.model_year = 2023)))
  let df := match year_to_drop with
    | some y => df.filter (fun r => decide (r.model_year ≠ y))
    | none => df
  let df := replace_zms zms_replaced_with df
  let df := df.map (set_ids mkt_def)
  let df := generate_firm_ids df
  let df := generate_fuel_type_dummies df
  let mkt_data := merge_vin_census df
  let mkt_data := clean_market_data mkt_data
  let mkt_data := calc_outside_good mkt_data
  let mkt_data := generate_pyblp_instruments mkt_data
  if makes_to_remove.isEmpty then mkt_data
  else remove_makes mkt_data makes_to_remove

/-- `prepare_experian_data` (script lines 104-130).  Every step before the
make removal is a call into the external collaborator module
`Reference.functions_v2`, abstracted here as function parameters (the VIN
and census reads are folded into the input and `merge_vin_census`). -/
def prepare_experian_data (exp_vin_data : List RlpRow)
    (merge_vin_census clean_market_data calc_outside_good
      generate_pyblp_instruments : List RlpRow → List RlpRow)
    (makes_to_remove : List String) : List RlpRow :=
  let exp_mkt_data := merge_vin_census exp_vin_data
  let exp_mkt_data := clean_market_data exp_mkt_data
  let exp_mkt_data := calc_outside_good exp_mkt_data
  let exp_mkt_data := generate_pyblp_instruments exp_mkt_data
  if makes_to_remove.isEmpty then exp_mkt_data
  else remove_makes exp_mkt_data makes_to_remove

/-- C5: replacing zero `veh_count` rows by a positive constant is
idempotent — a second pass finds no zeroes left. -/
theorem C5_zms_idempotent :
    ∀ (df : List RlpRow) (c : Rat), 0 < c →
      replace_zms c (replace_zms c df) = replace_zms c df := by
  intro df c hc
  unfold replace_zms
  rw [List.map_map]
  refine List.map_congr_left ?_
  intro r _
  by_cases h : r.veh_count = 0
  · simp [Function.comp, h, hc.ne']
  · simp [Function.comp, h]

/-- Sample input row (a make slated for removal, with a zero count). -/
def sample_rlp_row : RlpRow :=
  { model_year := 2020, veh_count := 0, make := "Smart", model := "ForTwo",
    trim := "base", fuel := "gasoline", range_elec := 0,
    county_name := "Fairfield", product_ids := "", market_ids := "" }

/-- Witness for `C5_zms_idempotent` at the replacement constant `1/100` of
the run (`zms_replaced_with = 0.01`) on a one-row table with a zero
count. -/
theorem C5_zms_idempotent_witness :
    replace_zms (1/100) (replace_zms (1/100) [sample_rlp_row])
      = replace_zms (1/100) [sample_rlp_row] :=
  C5_zms_idempotent [sample_rlp_row] (1/100) (by norm_num)

/-- A row surviving `remove_makes` was in the input and its make is outside
the removal list. -/
theorem mem_remove_makes {r : RlpRow} :
    ∀ {makes : List String} {df : List RlpRow},
      r ∈ remove_makes df makes → r ∈ df ∧ ∀ mk ∈ makes, r.make ≠ mk := by
  intro makes
  induction makes with
  | nil =>
    intro df h
    exact ⟨h, by simp⟩
  | cons m ms ih =>
    intro df h
    obtain ⟨hmem, hrest⟩ := ih h
    have hf := List.mem_filter.mp hmem
    refine ⟨hf.1, ?_⟩
    intro mk hmk
    rcases List.mem_cons.mp hmk with hEq | hmk'
    · subst hEq
      simpa using hf.2
    · exact hrest mk hmk'

/-- No row with a removed make survives `remove_makes`. -/
theorem countP_remove_makes (df : List RlpRow) (makes : List String)
    (mk : String) (hmk : mk ∈ makes) :
    (remove_makes df makes).countP (fun r => decide (r.make = mk)) = 0 := by
  rw [List.countP_eq_zero]
  intro r hr
  have h := (mem_remove_makes hr).2 mk hmk
  simpa using h

/-- C6: for every input panel, every non-empty removal list and all
behaviours of the external cleaning steps, a removed make appears in zero
rows of the prepared output of both preparers. -/
theorem C6_removed_makes_absent :
    ∀ (f1 f2 f3 f4 f5 f6 g1 g2 g3 g4 : List RlpRow → List RlpRow)
      (rlp_raw exp_vin : List RlpRow) (makes : List String) (mkt_def : String)
      (year_to_drop : Option Int) (zms : Rat) (mk : String),
      makes ≠ [] → mk ∈ makes →
      (prepare_rlp_data f1 f2 f3 f4 f5 f6 rlp_raw makes mkt_def year_to_drop
          zms).countP (fun r => decide (r.make = mk)) = 0
      ∧ (prepare_experian_data exp_vin g1 g2 g3 g4 makes).countP
          (fun r => decide (r.make = mk)) = 0 := by
  intro f1 f2 f3 f4 f5 f6 g1 g2 g3 g4 rlp_raw exp_vin makes mkt_def ytd zms mk
    hne hmk
  cases makes with
  | nil => exact absurd rfl hne
  | cons m ms =>
    exact ⟨countP_remove_makes _ (m :: ms) mk hmk,
           countP_remove_makes _ (m :: ms) mk hmk⟩

/-- Witness for `C6_removed_makes_absent`: removing `"Smart"` (with
identity externals) leaves zero `"Smart"` rows in both outputs. -/
theorem C6_removed_makes_absent_witness :
    (prepare_rlp_data id id id id id id [sample_rlp_row] ["Smart"]
        "county_model_year" none (1/100)).countP
        (fun r => decide (r.make = "Smart")) = 0
    ∧ (prepare_experian_data [sample_rlp_row] id id id id ["Smart"]).countP
        (fun r => decide (r.make = "Smart")) = 0 :=
  C6_removed_makes_absent id id id id id id id id id id [sample_rlp_row]
    [sample_rlp_row] ["Smart"] "county_model_year" none (1/100) "Smart"
    (by decide) (by decide)

end EstimateDemandCompare

namespace EstimateDemandCompare

/-- A column of a dataframe: name and values. -/
abbrev DCol := String × List CVal

/-- A column-oriented dataframe, used for the OLS design-matrix step. -/
abbrev DFrame := List DCol

/-- Column lookup `df[p]` (the frames used here contain their columns; a
missing column reads as empty). -/
def getCol (df : DFrame) (p : String) : DCol :=
  (df.find? (fun c => decide (c.1 = p))).getD (p, [])

/-- Sort key giving the order pandas uses for the categories of an object
column (sorted unique values). -/
def CVal.key : CVal → String
  | .s v => v
  | .i v => toString v
  | .q v => toString v
  | .na => ""

/-- Insert into a list sorted by `CVal.key`. -/
def insertByKey (v : CVal) : List CVal → List CVal
  | [] => [v]
  | w :: ws => if v.key ≤ w.key then v :: w :: ws else w :: insertByKey v ws

/-- The sorted distinct values of a column: pandas' category order for
`pd.get_dummies`. -/
def sortedCategories (values : List CVal) : List CVal :=
  (values.foldl (fun acc v => if v ∈ acc then acc else acc ++ [v]) []).foldr
    insertByKey []

/-- The indicator columns `pd.get_dummies` creates for one categorical
column under `drop_first=True`: one 0/1 column per category after the
first. -/
def dummyCols (p : String) (values : List CVal) : List DCol :=
  ((sortedCategories values).drop 1).map fun v =>
    (p ++ "_" ++ v.key,
     values.map (fun x => if x = v then CVal.i 1 else CVal.i 0))

/-- `pd.get_dummies(X, columns=cats, drop_first=True)` (script lines
277-279): non-encoded columns keep their order, followed by the dummy
groups of the encoded columns. -/
def get_dummies (cats : List String) (X : DFrame) : DFrame :=
  X.filter (fun c => !(cats.contains c.1))
    ++ cats.flatMap (fun p => dummyCols p (getCol X p).2)

/-- Number of rows of a column-oriented frame. -/
def nrowsD (X : DFrame) : Nat := (X.headD ("", [])).2.length

/-- `sm.add_constant` (script line 281): prepend an all-ones `const`
column. -/
def add_constant (X : DFrame) : DFrame :=
  ("const", List.replicate (nrowsD X) (CVal.q 1)) :: X

/-- The categorical columns expanded to dummies for the OLS design (script
lines 276-279): `county_name` joins exactly in the RLP/county branch. -/
def ols_dummy_columns (data_source mkt : String) : List String :=
  if data_source = "RLP" ∧ mkt = "county_model_year" then
    ["make", "drivetype", "bodytype", "county_name"]
  else
    ["make", "drivetype", "bodytype"]

/-- The OLS fit inputs built at script lines 274-282: the design matrix
(selected covariates, categoricals expanded to first-dropped dummies,
constant prepended) and the response `Y = mkt_data['shares']`. -/
def ols_fit_inputs (mkt_data : DFrame) (data_source mkt : String) (j : Nat) :
    DFrame × List CVal :=
  let X := (params_ols data_source mkt j).map (getCol mkt_data)
  let X := get_dummies (ols_dummy_columns data_source mkt) X
  let Y := (getCol mkt_data "shares").2
  let X := add_constant X
  (X, Y)

/-- A looked-up column carries the requested name. -/
theorem getCol_fst (df : DFrame) (p : String) : (getCol df p).1 = p := by
  unfold getCol
  cases h : df.find? (fun c => decide (c.1 = p)) with
  | none => rfl
  | some c =>
    have hc := List.find?_some h
    simpa using hc

/-- Filtering selected columns by name is selecting the filtered names. -/
theorem filter_map_getCol (df : DFrame) (ps cats : List String) :
    (ps.map (getCol df)).filter (fun c => !(cats.contains c.1))
      = (ps.filter (fun p => !(cats.contains p))).map (getCol df) := by
  rw [List.filter_map]
  refine congrArg (List.map (getCol df)) ?_
  apply List.filter_congr
  intro p hp
  simp [Function.comp, getCol_fst]

/-- `find?` over selected columns mirrors `find?` over the names. -/
theorem find?_map_getCol (df : DFrame) (ps : List String) (p : String) :
    (ps.map (getCol df)).find? (fun c => decide (c.1 = p))
      = (ps.find? (fun q => decide (q = p))).map (getCol df) := by
  induction ps with
  | nil => rfl
  | cons q t ih =>
    simp only [List.map_cons, List.find?_cons, getCol_fst]
    by_cases h : q = p
    · simp [h]
    · simp [h, ih]

/-- Looking a name up among columns selected for that name list falls
through to the underlying frame. -/
theorem getCol_map_getCol (df : DFrame) {ps : List String} {p : String}
    (hp : p ∈ ps) : getCol (ps.map (getCol df)) p = getCol df p := by
  have hsome : (ps.find? (fun q => decide (q = p))).isSome := by
    rw [List.find?_isSome]
    exact ⟨p, hp, by simp⟩
  obtain ⟨x, hx⟩ := Option.isSome_iff_exists.mp hsome
  have hxp : x = p := by simpa using List.find?_some hx
  subst hxp
  show ((ps.map (getCol df)).find? (fun c => decide (c.1 = x))).getD (x, [])
      = getCol df x
  rw [find?_map_getCol, hx]
  rfl

/-- Pointwise-equal block functions flatten to the same list. -/
theorem flatMap_congr_mem {α β : Type} {l : List α} {f g : α → List β}
    (h : ∀ a ∈ l, f a = g a) : l.flatMap f = l.flatMap g := by
  induction l with
  | nil => rfl
  | cons a t ih =>
    simp only [List.flatMap_cons]
    rw [h a (List.mem_cons_self a t),
      ih (fun x hx => h x (List.mem_cons_of_mem a hx))]

end EstimateDemandCompare

namespace EstimateDemandCompare

/-- C4: for every data source, market definition, specification index in
the list and market table, the OLS design uses the same covariates as the
discrete-choice formula (the formula terms with the `C(...)` wrapper
stripped); the design matrix is the constant column followed by the
non-categorical covariate columns unchanged and, for each categorical
column, its dummy indicator columns with the first (sorted) category
dropped; and the response is the `shares` column, untransformed. -/
theorem C4_ols_design :
    (∀ ds ∈ ["Experian", "RLP"], ∀ mkt ∈ ["model_year", "county_model_year"],
      ∀ j ∈ specifications, ∀ (mkt_data : DFrame),
        params_ols ds mkt j = (params_logit ds mkt j).map stripC
        ∧ (ols_fit_inputs mkt_data ds mkt j).1
            = add_constant
                ((params_master.take j).map (getCol mkt_data)
                  ++ (ols_dummy_columns ds mkt).flatMap
                      (fun p => dummyCols p (getCol mkt_data p).2))
        ∧ (ols_fit_inputs mkt_data ds mkt j).2 = (getCol mkt_data "shares").2)
    ∧ (∀ (p : String) (vs : List CVal),
        (dummyCols p vs).length = (sortedCategories vs).length - 1) := by
  constructor
  · intro ds hds mkt hmkt j hj mkt_data
    have hds' : ds = "Experian" ∨ ds = "RLP" := by simpa using hds
    have hmkt' : mkt = "model_year" ∨ mkt = "county_model_year" := by
      simpa using hmkt
    have hj' : j = 1 ∨ j = 2 ∨ j = 6 ∨ j = 7 ∨ j = 8 ∨ j = 9 ∨ j = 10 := by
      simpa [specifications] using hj
    have hfil : (params_ols ds mkt j).filter
        (fun p => !((ols_dummy_columns ds mkt).contains p))
        = params_master.take j := by
      rcases hds' with rfl | rfl <;> rcases hmkt' with rfl | rfl <;>
        rcases hj' with rfl | rfl | rfl | rfl | rfl | rfl | rfl <;> decide
    have hsub : ∀ p ∈ ols_dummy_columns ds mkt, p ∈ params_ols ds mkt j := by
      rcases hds' with rfl | rfl <;> rcases hmkt' with rfl | rfl <;>
        rcases hj' with rfl | rfl | rfl | rfl | rfl | rfl | rfl <;> decide
    refine ⟨?_, ?_, rfl⟩
    · rcases hds' with rfl | rfl <;> rcases hmkt' with rfl | rfl <;>
        rcases hj' with rfl | rfl | rfl | rfl | rfl | rfl | rfl <;> decide
    · simp only [ols_fit_inputs, get_dummies]
      rw [filter_map_getCol, hfil]
      refine congrArg add_constant ?_
      refine congrArg (fun t => (params_master.take j).map (getCol mkt_data) ++ t) ?_
      exact flatMap_congr_mem
        (fun p hp => by rw [getCol_map_getCol mkt_data (hsub p hp)])
  · intro p vs
    simp [dummyCols]

/-- Sample market table for the OLS design witness. -/
def c4_sample : DFrame :=
  [("prices", [CVal.q 1, CVal.q 2]),
   ("make", [CVal.s "A", CVal.s "B"]),
   ("drivetype", [CVal.s "fwd", CVal.s "awd"]),
   ("bodytype", [CVal.s "suv", CVal.s "sedan"]),
   ("county_name", [CVal.s "Fairfield", CVal.s "Hartford"]),
   ("shares", [CVal.q (1/10), CVal.q (1/5)])]

/-- Witness for `C4_ols_design` at source `"RLP"`, market
`"county_model_year"`, `j = 1`, on `c4_sample`. -/
theorem C4_ols_design_witness :
    params_ols "RLP" "county_model_year" 1
        = (params_logit "RLP" "county_model_year" 1).map stripC
    ∧ (ols_fit_inputs c4_sample "RLP" "county_model_year" 1).2
        = (getCol c4_sample "shares").2 :=
  ⟨(C4_ols_design.1 "RLP" (by decide) "county_model_year" (by decide) 1
      (by decide) c4_sample).1,
   (C4_ols_design.1 "RLP" (by decide) "county_model_year" (by decide) 1
      (by decide) c4_sample).2.2⟩

end EstimateDemandCompare

namespace RlpFinalizeData

/-- `phev_elec_share` (finalize script line 4). -/
def phev_elec_share : Rat := 563/1000

/-- A row of the decoded RLP panel, restricted to the fields script lines
86-130 read.  `report_year`/`report_month` are the integer key columns
already split out of `report_year_month` by lines 72-74, upstream of the
steps embedded here. -/
structure PanelRow where
  report_year : Int
  report_month : Int
  fuel : String
  combined : Rat
deriving DecidableEq, Repr

/-- A row of the processed monthly gas-price table. -/
structure GasRow where
  year : Int
  month : Int
  gas_price_21 : Rat
deriving DecidableEq, Repr

/-- A row of the processed monthly diesel-price table. -/
structure DieselRow where
  year : Int
  month : Int
  diesel_price_21 : Rat
deriving DecidableEq, Repr

/-- A row of the processed yearly electricity-price table. -/
structure ElecRow where
  year : Int
  electricity_price_21 : Rat
deriving DecidableEq, Repr

/-- A panel row after the three left merges (lines 87-94): the joined key
columns carry the pandas suffixes `_x` (gas), `_y` (diesel) and no suffix
(electricity); a non-matching key leaves missing values. -/
structure MergedRow where
  report_year : Int
  report_month : Int
  fuel : String
  combined : Rat
  year_x : Option Int
  month_x : Option Int
  gas_price_21 : Option Rat
  year_y : Option Int
  month_y : Option Int
  diesel_price_21 : Option Rat
  year : Option Int
  electricity_price_21 : Option Rat
deriving DecidableEq, Repr

/-- Left merge with the gas table on `(report_year, report_month) =
(year, month)` (lines 87-88): each panel row pairs with every matching gas
row, or survives once with missing values when no gas row matches. -/
def merge_gas (df : List PanelRow) (gas : List GasRow) : List MergedRow :=
  df.flatMap fun r =>
    let ms := gas.filter
      (fun g => decide (g.year = r.report_year ∧ g.month = r.report_month))
    if ms.isEmpty then
      [{ report_year := r.report_year, report_month := r.report_month,
         fuel := r.fuel, combined := r.combined,
         year_x := none, month_x := none, gas_price_21 := none,
         year_y := none, month_y := none, diesel_price_21 := none,
         year := none, electricity_price_21 := none }]
    else
      ms.map fun g =>
        { report_year := r.report_year, report_month := r.report_month,
          fuel := r.fuel, combined := r.combined,
          year_x := some g.year, month_x := some g.month,
          gas_price_21 := some g.gas_price_21,
          year_y := none, month_y := none, diesel_price_21 := none,
          year := none, electricity_price_21 := none }

/-- Left merge with the diesel table (lines 90-91). -/
def merge_diesel (df : List MergedRow) (diesel : List DieselRow) :
    List MergedRow :=
  df.flatMap fun r =>
    let ms := diesel.filter
      (fun d => decide (d.year = r.report_year ∧ d.month = r.report_month))
    if ms.isEmpty then
      [{ r with year_y := none, month_y := none, diesel_price_21 := none }]
    else
      ms.map fun d =>
        { r with
          year_y := some d.year
          month_y := some d.month
          diesel_price_21 := some d.diesel_price_21 }

/-- Left merge with the electricity table on `report_year = year`
(lines 93-94). -/
def merge_elec (df : List MergedRow) (elec : List ElecRow) : List MergedRow :=
  df.flatMap fun r =>
    let ms := elec.filter (fun e => decide (e.year = r.report_year))
    if ms.isEmpty then
      [{ r with year := none, electricity_price_21 := none }]
    else
      ms.map fun e =>
        { r with
          year := some e.year
          electricity_price_21 := some e.electricity_price_21 }

/-- The merged table of script lines 87-94. -/
def merged (df : List PanelRow) (gas : List GasRow) (diesel : List DieselRow)
    (elec : List ElecRow) : List MergedRow :=
  merge_elec (merge_diesel (merge_gas df gas) diesel) elec

/-- The table kept after line 105 drops the duplicate key columns
(`year_x`, `month_x`, `year_y`, `month_y`, `year`); the `dollar_per_mile`
column does not exist yet. -/
structure OutRow where
  report_year : Int
  report_month : Int
  fuel : String
  combined : Rat
  gas_price_21 : Option Rat
  diesel_price_21 : Option Rat
  electricity_price_21 : Option Rat
  dollar_per_mile : Option Rat
deriving DecidableEq, Repr

/-- Line 105: drop the duplicate merge-key columns. -/
def drop_key_columns (r : MergedRow) : OutRow :=
  { report_year := r.report_year, report_month := r.report_month,
    fuel := r.fuel, combined := r.combined,
    gas_price_21 := r.gas_price_21, diesel_price_21 := r.diesel_price_21,
    electricity_price_21 := r.electricity_price_21, dollar_per_mile := none }

/-- Masked assignment of lines 109-110: gasoline and hybrid rows get
`gas_price_21 / combined`. -/
def dpm_gas_hybrid (r : OutRow) : OutRow :=
  if r.fuel = "gasoline" ∨ r.fuel = "hybrid" then
    { r with dollar_per_mile := r.gas_price_21.map (fun p => p / r.combined) }
  else r

/-- Masked assignment of lines 114-115: diesel rows get
`diesel_price_21 / combined`. -/
def dpm_diesel (r : OutRow) : OutRow :=
  if r.fuel = "diesel" then
    { r with dollar_per_mile := r.diesel_price_21.map (fun p => p / r.combined) }
  else r

/-- Masked assignment of lines 118-119: flex-fuel rows get
`gas_price_21 / combined`. -/
def dpm_flex_fuel (r : OutRow) : OutRow :=
  if r.fuel = "flex fuel" then
    { r with dollar_per_mile := r.gas_price_21.map (fun p => p / r.combined) }
  else r

/-- Masked assignment of lines 123-125: phev rows mix the electricity and
gas prices with weight `phev_elec_share` before dividing by `combined`. -/
def dpm_phev (r : OutRow) : OutRow :=
  if r.fuel = "phev" then
    { r with dollar_per_mile :=
        match r.electricity_price_21, r.gas_price_21 with
        | some e, some g =>
            some ((e * phev_elec_share + g * (1 - phev_elec_share)) / r.combined)
        | _, _ => none }
  else r

/-- Lines 108-129: the four masked assignments, then
`dropna(subset=["dollar_per_mile"])`. -/
def dollar_per_mile_step (rows : List OutRow) : List OutRow :=
  let rows := rows.map dpm_gas_hybrid
  let rows := rows.map dpm_diesel
  let rows := rows.map dpm_flex_fuel
  let rows := rows.map dpm_phev
  rows.filter (fun r => r.dollar_per_mile.isSome)

/-- The finalize pipeline of lines 86-130: the three merges, the `assert`
checks translated to `Except.error` aborts carrying the assert messages in
the script's order, the column drop, and the dollar-per-mile step. -/
def finalize (df : List PanelRow) (gas : List GasRow) (diesel : List DieselRow)
    (elec : List ElecRow) : Except String (List OutRow) :=
  let len_rlp := df.length
  let m := merged df gas diesel elec
  if m.length = len_rlp then
    if m.all (fun r => decide (r.year_x = r.year_y)) then
      if m.all (fun r => decide (r.month_x = r.month_y)) then
        if m.all (fun r => decide (r.year_x = r.year)) then
          if m.all (fun r => decide (r.year_x = some r.report_year)) then
            if m.all (fun r => decide (r.month_x = some r.report_month)) then
              Except.ok (dollar_per_mile_step (m.map drop_key_columns))
            else Except.error "Month mismatch"
          else Except.error "Year mismatch"
        else Except.error "Year mismatch"
      else Except.error "Month mismatch"
    else Except.error "Year mismatch"
  else Except.error "Length mismatch"

end RlpFinalizeData

namespace RlpFinalizeData

/-- C7: any row-count change across the three left joins, and any mismatch
(including a missing value from a non-matching key) between the joined
year/month key columns and the panel's `report_year`/`report_month`
columns, makes the finalize pipeline abort with an assertion-style error —
no output table is produced. -/
theorem C7_join_integrity :
    ∀ (df : List PanelRow) (gas : List GasRow) (diesel : List DieselRow)
      (elec : List ElecRow),
      ((merged df gas diesel elec).length ≠ df.length
        ∨ ∃ r ∈ merged df gas diesel elec,
            ¬ (r.year_x = some r.report_year ∧ r.month_x = some r.report_month
               ∧ r.year_y = some r.report_year ∧ r.month_y = some r.report_month
               ∧ r.year = some r.report_year)) →
      ∃ msg, finalize df gas diesel elec = Except.error msg := by
  intro df gas diesel elec hbad
  simp only [finalize]
  split_ifs with h1 h2 h3 h4 h5 h6
  · exfalso
    rcases hbad with hlen | ⟨r, hr, hneg⟩
    · exact hlen h1
    · have a2 := of_decide_eq_true (List.all_eq_true.mp h2 r hr)
      have a3 := of_decide_eq_true (List.all_eq_true.mp h3 r hr)
      have a4 := of_decide_eq_true (List.all_eq_true.mp h4 r hr)
      have a5 := of_decide_eq_true (List.all_eq_true.mp h5 r hr)
      have a6 := of_decide_eq_true (List.all_eq_true.mp h6 r hr)
      exact hneg ⟨a5, a6, a2 ▸ a5, a3 ▸ a6, a4 ▸ a5⟩
  all_goals exact ⟨_, rfl⟩

/-- One-row panel whose keys match nothing in the (empty) price tables. -/
def c7_panel : List PanelRow :=
  [{ report_year := 2020, report_month := 1, fuel := "gasoline", combined := 25 }]

/-- Witness for `C7_join_integrity`: merging against empty price tables
leaves missing key values and the pipeline aborts. -/
theorem C7_join_integrity_witness :
    ∃ msg, finalize c7_panel [] [] [] = Except.error msg :=
  C7_join_integrity c7_panel [] [] [] (by decide)

/-- The dollar-per-mile column as the claim describes it, one formula per
fuel category, missing outside the five categories. -/
def dpm_spec (r : OutRow) : Option Rat :=
  if r.fuel = "gasoline" ∨ r.fuel = "hybrid" then
    r.gas_price_21.map (fun p => p / r.combined)
  else if r.fuel = "diesel" then
    r.diesel_price_21.map (fun p => p / r.combined)
  else if r.fuel = "flex fuel" then
    r.gas_price_21.map (fun p => p / r.combined)
  else if r.fuel = "phev" then
    match r.electricity_price_21, r.gas_price_21 with
    | some e, some g =>
        some ((e * phev_elec_share + g * (1 - phev_elec_share)) / r.combined)
    | _, _ => none
  else none

/-- On a row without a dollar-per-mile value yet, the four masked
assignments compose to the per-fuel formula. -/
theorem dpm_step_row (r : OutRow) (h : r.dollar_per_mile = none) :
    dpm_phev (dpm_flex_fuel (dpm_diesel (dpm_gas_hybrid r)))
      = { r with dollar_per_mile := dpm_spec r } := by
  obtain ⟨ry, rm, fu, cb, gp, dp, ep, dm⟩ := r
  simp only at h
  subst h
  by_cases hg : fu = "gasoline"
  · simp [dpm_gas_hybrid, dpm_diesel, dpm_flex_fuel, dpm_phev, dpm_spec, hg]
  by_cases hh : fu = "hybrid"
  · simp [dpm_gas_hybrid, dpm_diesel, dpm_flex_fuel, dpm_phev, dpm_spec, hh, hg]
  by_cases hd : fu = "diesel"
  · simp [dpm_gas_hybrid, dpm_diesel, dpm_flex_fuel, dpm_phev, dpm_spec, hd, hg, hh]
  by_cases hf : fu = "flex fuel"
  · simp [dpm_gas_hybrid, dpm_diesel, dpm_flex_fuel, dpm_phev, dpm_spec, hf, hg, hh, hd]
  by_cases hp : fu = "phev"
  · simp [dpm_gas_hybrid, dpm_diesel, dpm_flex_fuel, dpm_phev, dpm_spec, hp, hg, hh, hd, hf]
  · simp [dpm_gas_hybrid, dpm_diesel, dpm_flex_fuel, dpm_phev, dpm_spec, hg, hh, hd, hf, hp]

/-- On rows without a dollar-per-mile value, the whole dollar-per-mile step
is: compute the per-fuel formula, then keep the rows where it exists. -/
theorem dollar_per_mile_step_eq (rows : List OutRow)
    (h : ∀ r ∈ rows, r.dollar_per_mile = none) :
    dollar_per_mile_step rows
      = ((rows.map (fun r => { r with dollar_per_mile := dpm_spec r })).filter
          (fun r => r.dollar_per_mile.isSome)) := by
  unfold dollar_per_mile_step
  refine congrArg (List.filter _) ?_
  rw [List.map_map, List.map_map, List.map_map]
  refine List.map_congr_left ?_
  intro r hr
  have hrow := dpm_step_row r (h r hr)
  simpa [Function.comp] using hrow

/-- A row whose per-fuel formula produced a value belongs to one of the
five fuel categories. -/
theorem dpm_spec_isSome_fuel (r : OutRow) (h : (dpm_spec r).isSome = true) :
    ["gasoline", "hybrid", "diesel", "flex fuel", "phev"].contains r.fuel
      = true := by
  unfold dpm_spec at h
  split_ifs at h with h1 h2 h3 h4
  · rcases h1 with h1 | h1 <;> simp [h1]
  · simp [h2]
  · simp [h3]
  · simp [h4]
  · simp at h

/-- C10: every row of the finalize output carries a present
`dollar_per_mile` equal to the per-fuel-category formula, and its fuel is
one of the five handled categories — rows outside them are dropped. -/
theorem C10_dollar_per_mile :
    ∀ (df : List PanelRow) (gas : List GasRow) (diesel : List DieselRow)
      (elec : List ElecRow) (out : List OutRow),
      finalize df gas diesel elec = Except.ok out →
      out.all (fun r =>
        r.dollar_per_mile.isSome
        && decide (r.dollar_per_mile = dpm_spec r)
        && ["gasoline", "hybrid", "diesel", "flex fuel", "phev"].contains r.fuel)
        = true := by
  intro df gas diesel elec out hok
  have hout : out
      = dollar_per_mile_step ((merged df gas diesel elec).map drop_key_columns) := by
    simp only [finalize] at hok
    split_ifs at hok with h1 h2 h3 h4 h5 h6
    injection hok with h
    exact h.symm
  subst hout
  rw [dollar_per_mile_step_eq _ (by
    intro r hr
    obtain ⟨r0, h0, rfl⟩ := List.mem_map.mp hr
    rfl)]
  rw [List.all_eq_true]
  intro r hr
  obtain ⟨hmem, hsome⟩ := List.mem_filter.mp hr
  obtain ⟨r0, hr0, rfl⟩ := List.mem_map.mp hmem
  have hspec_eq :
      dpm_spec ({ r0 with dollar_per_mile := dpm_spec r0 } : OutRow)
        = dpm_spec r0 := rfl
  simp only [Bool.and_eq_true]
  refine ⟨⟨hsome, ?_⟩, ?_⟩
  · exact decide_eq_true hspec_eq
  · have hs : (dpm_spec r0).isSome = true := hsome
    have := dpm_spec_isSome_fuel r0 (by simpa using hs)
    simpa using this

/-- Concrete inputs for the `C10_dollar_per_mile` witness: a one-row
gasoline panel with matching price rows. -/
def c10_panel : List PanelRow :=
  [{ report_year := 2020, report_month := 1, fuel := "gasoline", combined := 25 }]

/-- Gas price table matching `c10_panel`. -/
def c10_gas : List GasRow := [{ year := 2020, month := 1, gas_price_21 := 3 }]

/-- Diesel price table matching `c10_panel`. -/
def c10_diesel : List DieselRow :=
  [{ year := 2020, month := 1, diesel_price_21 := 4 }]

/-- Electricity price table matching `c10_panel`. -/
def c10_elec : List ElecRow := [{ year := 2020, electricity_price_21 := 5 }]

/-- Witness for `C10_dollar_per_mile` on a successful one-row run. -/
theorem C10_dollar_per_mile_witness :
    ∃ out, finalize c10_panel c10_gas c10_diesel c10_elec = Except.ok out
      ∧ out.all (fun r =>
          r.dollar_per_mile.isSome
          && decide (r.dollar_per_mile = dpm_spec r)
          && ["gasoline", "hybrid", "diesel", "flex fuel", "phev"].contains r.fuel)
          = true :=
  ⟨_, rfl, C10_dollar_per_mile c10_panel c10_gas c10_diesel c10_elec _ rfl⟩

end RlpFinalizeData
